import Mathlib

/-!
Shallow embedding of the client-side trade-in cart/quoting engine of this
Shopify theme (src/assets/trade-in-app.js, the submission-validation variant
in src/unnamed/part_001, and the tracking page src/assets/trade-in-track.js).

Modelling conventions:
* All monetary values are integer minor units (pence), as in the source.
* The condition multipliers (0.70, 0.55, 0.40, 0.25, 0.10) are JavaScript
  doubles; the price fallback models them by their exact binary64 values and
  performs one round-to-nearest-even multiplication before flooring
  (`jsMulFloor`), matching `Math.floor(p * m)` bit for bit.  The 0.10
  store-credit bonus factor is modelled as the exact rational 11/10:
  `Math.floor(subtotal * fl(1.1))` coincides with `subtotal * 110 / 100`
  throughout the representable pence range because fl(1.1) errs upward.
* `localStorage` is a record of the two keys the engine uses
  (`tradeInCart`, `tradeInCartVersion`); `JSON.stringify`/`JSON.parse` of a
  well-formed cart array is modelled as the identity on the typed list.
* JavaScript string truthiness (`!s`) is modelled as equality with `""`.
* The backend is a black box: network calls appear as `Except` parameters.
-/

namespace TradeIn

/-- A nonnegative binary64 (IEEE-754 double) value, written as the exact
dyadic rational `num / 2 ^ scalePow`. -/
structure JsDouble where
  num : Nat
  scalePow : Nat
deriving DecidableEq, Repr

/-- Round `N / 2 ^ k` to the nearest integer, ties to even — the IEEE-754
default rounding applied after a double multiplication. -/
def roundHalfEven (N k : Nat) : Nat :=
  if k = 0 then N
  else
    let q := N / 2 ^ k
    let r := N % 2 ^ k
    let half := 2 ^ k / 2
    if half < r then q + 1
    else if r < half then q
    else if q % 2 = 1 then q + 1 else q

/-- Binary length of a natural number, fuel-based so that concrete values
reduce inside the kernel (the fuel `n` always suffices). -/
def bitLenAux : Nat → Nat → Nat
  | 0, _ => 0
  | fuel + 1, n => if n = 0 then 0 else bitLenAux fuel (n / 2) + 1

def bitLen (n : Nat) : Nat := bitLenAux n n

/-- `Math.floor(p * m)` for an exactly-representable integer `p` (below
2^53, which covers every pence amount the app handles) and a double `m`:
the exact product is rounded once to the nearest double with 53 significand
bits (ties to even), then floored. -/
def jsMulFloor (p : Nat) (m : JsDouble) : Nat :=
  let N := p * m.num
  let b := bitLen N
  if b ≤ 53 then N / 2 ^ m.scalePow
  else
    let shift := b - 53
    roundHalfEven N shift * 2 ^ shift / 2 ^ m.scalePow

/-- The binary64 value of the source literal `0.70`:
3152519739159347 / 2^52, slightly below 7/10. -/
def fl070 : JsDouble := ⟨3152519739159347, 52⟩

/-- The binary64 value of the source literal `0.55`:
2476979795053773 / 2^52, slightly above 11/20. -/
def fl055 : JsDouble := ⟨2476979795053773, 52⟩

/-- The binary64 value of the source literal `0.40`:
3602879701896397 / 2^53, slightly above 2/5. -/
def fl040 : JsDouble := ⟨3602879701896397, 53⟩

/-- The binary64 value of the source literal `0.25`: exactly 1/4. -/
def fl025 : JsDouble := ⟨1, 2⟩

/-- The binary64 value of the source literal `0.10`:
3602879701896397 / 2^55, slightly above 1/10. -/
def fl010 : JsDouble := ⟨3602879701896397, 55⟩

/-- One entry of `DEFAULT_CONFIG.conditions` (trade-in-app.js lines 18-24):
a condition code together with its multiplier, a JavaScript number carrying
the binary64 value of the written decimal literal. -/
structure ConditionDef where
  code : String
  multiplier : JsDouble
deriving DecidableEq, Repr

/-- `DEFAULT_CONFIG.conditions` from trade-in-app.js lines 18-24. -/
def defaultConditions : List ConditionDef :=
  [⟨"NM", fl070⟩, ⟨"LP", fl055⟩, ⟨"MP", fl040⟩, ⟨"HP", fl025⟩, ⟨"DMG", fl010⟩]

/-- `DEFAULT_CONFIG.minimumValue` (500 pence, trade-in-app.js line 15). -/
def defaultMinimumValue : Nat := 500

/-- `DEFAULT_CONFIG.storeCreditBonus` (0.10, trade-in-app.js line 16),
as a percentage numerator: 10. -/
def defaultStoreCreditBonusPct : Nat := 10

/-- `CART_VERSION` (trade-in-app.js line 359). -/
def CART_VERSION : Nat := 2

/-- A catalog card as produced by `normalizeCardData` (trade-in-app.js
lines 189-244).  `prices` models the normalized `card.prices` object: a null
map is `fun _ => none`, and a present per-condition entry is `some p`,
matching the source's `card.prices && typeof card.prices[c] === 'number'`
guard. -/
structure Card where
  cardId : String
  name : String
  setCode : String
  fullCardNumber : String
  variantType : String
  imageUrl : Option String
  bestPriceGbp : Nat
  prices : String → Option Nat

/-- A cart entry as pushed by `addToCart` (trade-in-app.js lines 435-446). -/
structure CartItem where
  cardId : String
  name : String
  set : String
  setCode : Option String
  variantType : Option String
  imageUrl : Option String
  condition : String
  quantity : Nat
  pricePerItem : Nat
  basePriceGbp : Nat
deriving DecidableEq, Repr

/-- The two `localStorage` keys used by the engine
(trade-in-app.js lines 363-364, 398-399). -/
structure Storage where
  tradeInCart : Option (List CartItem)
  tradeInCartVersion : Option String
deriving DecidableEq, Repr

/-- The price resolved for a new cart entry, from the body of `addToCart`
(trade-in-app.js lines 420-433): prefer the pre-calculated condition price
when present; otherwise fall back to `Math.floor(bestPriceGbp * multiplier)`
computed in IEEE-754 doubles (`jsMulFloor`), guarded by the source's
truthiness tests on the found condition entry and on `card.bestPriceGbp`. -/
def resolvePrice (conditions : List ConditionDef) (card : Card)
    (condition : String) : Nat :=
  match card.prices condition with
  | some p => p
  | none =>
    match conditions.find? (fun c => c.code == condition) with
    | some conditionData =>
      if card.bestPriceGbp ≠ 0 then
        jsMulFloor card.bestPriceGbp conditionData.multiplier
      else 0
    | none => 0

/-- The object pushed by `addToCart` for a new (cardId, condition) pair
(trade-in-app.js lines 435-446); `||` on strings is modelled with the
emptiness test. -/
def newCartItem (conditions : List ConditionDef) (card : Card)
    (condition : String) (quantity : Nat) : CartItem :=
  { cardId := card.cardId
    name := card.name
    set := if card.fullCardNumber ≠ "" then card.fullCardNumber else card.setCode
    setCode := if card.setCode ≠ "" then some card.setCode else none
    variantType := if card.variantType ≠ "" then some card.variantType else none
    imageUrl := card.imageUrl
    condition := condition
    quantity := quantity
    pricePerItem := resolvePrice conditions card condition
    basePriceGbp := card.bestPriceGbp }

/-- `Array.prototype.findIndex` over the cart for a (cardId, condition) pair,
as used at trade-in-app.js lines 413-415 (an `Option Nat` stands for the
source's `-1` signalling absence). -/
def findPairIdx (cart : List CartItem) (cardId condition : String) :
    Option Nat :=
  match cart with
  | [] => none
  | item :: rest =>
    if item.cardId == cardId && item.condition == condition then some 0
    else (findPairIdx rest cardId condition).map (· + 1)

/-- In-place update of one array slot (`state.cart[i] = ...` style edits). -/
def modifyAt (cart : List CartItem) (i : Nat) (f : CartItem → CartItem) :
    List CartItem :=
  match cart, i with
  | [], _ => []
  | x :: xs, 0 => f x :: xs
  | x :: xs, n + 1 => x :: modifyAt xs n f

/-- `addToCart(card, condition, quantity)` restricted to its effect on
`state.cart` (trade-in-app.js lines 412-447): merge into an existing
(cardId, condition) entry by summing quantity, else append a new entry with
the resolved price snapshot. -/
def addToCart (conditions : List ConditionDef) (cart : List CartItem)
    (card : Card) (condition : String) (quantity : Nat) : List CartItem :=
  match findPairIdx cart card.cardId condition with
  | some i =>
    modifyAt cart i (fun item => { item with quantity := item.quantity + quantity })
  | none => cart ++ [newCartItem conditions card condition quantity]

/-- `removeFromCart(index)`: `state.cart.splice(index, 1)`
(trade-in-app.js line 456). -/
def removeFromCart (cart : List CartItem) (index : Nat) : List CartItem :=
  cart.eraseIdx index

/-- `updateCartQuantity(index, delta)` restricted to its effect on
`state.cart` (trade-in-app.js lines 462-470): missing index is a no-op,
otherwise `item.quantity = Math.max(1, item.quantity + delta)`. -/
def updateCartQuantityCart (cart : List CartItem) (index : Nat)
    (delta : Int) : List CartItem :=
  match cart.get? index with
  | none => cart
  | some _ =>
    modifyAt cart index
      (fun item => { item with quantity := (max 1 ((item.quantity : Int) + delta)).toNat })

/-- `saveCart()` (trade-in-app.js lines 396-403): store the serialized cart
and the current version marker. -/
def saveCart (cart : List CartItem) (_storage : Storage) : Storage :=
  { tradeInCart := some cart
    tradeInCartVersion := some (toString CART_VERSION) }

/-- The required-field check applied on load (trade-in-app.js line 379):
`item && item.cardId && item.name && item.condition`, with JavaScript string
truthiness. -/
def itemValid (item : CartItem) : Bool :=
  item.cardId ≠ "" && item.name ≠ "" && item.condition ≠ ""

/-- `loadCart()` (trade-in-app.js lines 361-394), returning the restored
`state.cart` together with the storage after the call.  A stored version
different from the current one discards the stored cart and resets the
marker; otherwise the stored items are filtered by `itemValid` and the
sanitized cart is re-persisted only when something was dropped. -/
def loadCart (storage : Storage) : List CartItem × Storage :=
  if storage.tradeInCartVersion ≠ some (toString CART_VERSION) then
    ([], { tradeInCart := none, tradeInCartVersion := some (toString CART_VERSION) })
  else
    match storage.tradeInCart with
    | none => ([], storage)
    | some parsedCart =>
      let valid := parsedCart.filter itemValid
      if valid.length ≠ parsedCart.length then (valid, saveCart valid storage)
      else (valid, storage)

/-- The derived totals record of `getCartTotals` (trade-in-app.js
lines 472-478). -/
structure Totals where
  itemCount : Nat
  subtotal : Nat
  storeCreditTotal : Nat
  bankTotal : Nat
deriving DecidableEq, Repr

/-- `getCartTotals()` (trade-in-app.js lines 472-478), with
`CONFIG.storeCreditBonus` given as a percentage numerator (default 10):
`Math.floor(subtotal * (1 + bonus))` becomes `subtotal * (100 + pct) / 100`. -/
def getCartTotals (bonusPct : Nat) (cart : List CartItem) : Totals :=
  let itemCount := cart.foldl (fun sum item => sum + item.quantity) 0
  let subtotal := cart.foldl (fun sum item => sum + item.pricePerItem * item.quantity) 0
  { itemCount := itemCount
    subtotal := subtotal
    storeCreditTotal := subtotal * (100 + bonusPct) / 100
    bankTotal := subtotal }

/-- `meetsMinimum` from `updateFormSections` (trade-in-app.js line 689):
the submit button is enabled exactly when this holds; it is the engine's
whole submission-eligibility check. -/
def meetsMinimum (bonusPct minimumValue : Nat) (cart : List CartItem) : Bool :=
  (getCartTotals bonusPct cart).subtotal ≥ minimumValue

/-- The minimum notice of `updateFormSections` (trade-in-app.js
lines 691-697): hidden when the minimum is met, otherwise it shows
`remaining = CONFIG.minimumValue - totals.subtotal`. -/
def minimumNotice (bonusPct minimumValue : Nat) (cart : List CartItem) :
    Option Nat :=
  if meetsMinimum bonusPct minimumValue cart then none
  else some (minimumValue - (getCartTotals bonusPct cart).subtotal)

/-- `updateCartQuantity(index, delta)` with its persistence effect
(trade-in-app.js lines 462-470): when the index refers to an item the new
cart is also written through `saveCart()`; otherwise the function returns
before touching anything. -/
def updateCartQuantity (cart : List CartItem) (storage : Storage)
    (index : Nat) (delta : Int) : List CartItem × Storage :=
  match cart.get? index with
  | none => (cart, storage)
  | some _ =>
    let cart' := updateCartQuantityCart cart index delta
    (cart', saveCart cart' storage)

/-- `CONFIG.apiBase` (trade-in-app.js line 28). -/
def apiBase : String := "/apps/trade-in"

/-- One element of the `items` array built for `POST /submissions`
(trade-in-app.js lines 836-844). -/
structure PayloadItem where
  cardPriceId : String
  cardName : String
  setName : String
  setCode : Option String
  variant : Option String
  conditionClaimed : String
  quantity : Nat
deriving DecidableEq, Repr

/-- `state.cart.map(item => ({...}))` from the submission payload
(trade-in-app.js lines 836-844). -/
def payloadItem (item : CartItem) : PayloadItem :=
  { cardPriceId := item.cardId
    cardName := item.name
    setName := if item.set ≠ "" then item.set else "Unknown"
    setCode := item.setCode
    variant := item.variantType
    conditionClaimed := item.condition
    quantity := item.quantity }

/-- The created-submission response, of which `handleSubmit` reads only
`submissionNumber` (trade-in-app.js lines 852-861). -/
structure SubmitResult where
  submissionNumber : String
deriving DecidableEq, Repr

/-- The three success links set by `handleSubmit`
(trade-in-app.js lines 859-861). -/
structure Links where
  packingSlip : String
  shipping : String
  tracking : String
deriving DecidableEq, Repr

/-- The state `handleSubmit` leaves behind: the cart, its persisted copy,
the success links when any, and the surfaced error message when any. -/
structure SubmitOutcome where
  cart : List CartItem
  storage : Storage
  links : Option Links
  errorMessage : Option String
deriving DecidableEq, Repr

/-- `handleSubmit(form)` (trade-in-app.js lines 800-875) restricted to cart
state, persistence and derived links.  The network call is the black-box
`response` argument (`Except` message/result, matching `submitTradeIn`'s
throw of `error.message || 'Submission failed'`).  Validation failure
(missing email) returns before any network or cart activity; a thrown error
reaches the catch block, which touches no cart state and surfaces
`err.message || 'Submission failed. Please try again.'`; success clears the
cart (`clearCart()` saves an empty cart, then `localStorage.removeItem`
drops the cart key) and parameterizes the three links with
`result.submissionNumber`. -/
def handleSubmit (email : String) (cart : List CartItem) (storage : Storage)
    (response : Except String SubmitResult) : SubmitOutcome :=
  if email = "" then
    { cart := cart, storage := storage, links := none
      errorMessage := some "Please enter your email address" }
  else
    match response with
    | .error msg =>
      { cart := cart, storage := storage, links := none
        errorMessage := some (if msg ≠ "" then msg else "Submission failed. Please try again.") }
    | .ok result =>
      { cart := []
        storage := { tradeInCart := none
                     tradeInCartVersion := some (toString CART_VERSION) }
        links := some
          { packingSlip := apiBase ++ "/packing-slip/" ++ result.submissionNumber
            shipping := apiBase ++ "/shipping-instructions/" ++ result.submissionNumber
            tracking := "/pages/trade-in-track?number=" ++ result.submissionNumber }
        errorMessage := none }

end TradeIn

namespace AppV2

/-!
The fuller submission-workflow variant of the same app
(src/unnamed/part_001, first bundle, `handleSubmit` lines 814-1021): it
additionally validates phone, contact channel and — for bank payout — the
account-holder name, sort code and account number, normalizing the bank
codes before validation and before transmission.
-/

/-- The raw form fields read at part_001 lines 824-837 (`?.value` of each
input; a missing input is the empty string). -/
structure FormData where
  email : String
  firstName : String
  lastName : String
  payoutType : String
  shopifyCustomerId : String
  bankAccountNameRaw : String
  bankSortCodeRaw : String
  bankAccountNumberRaw : String
  phoneRaw : String
  contactChannel : String
deriving DecidableEq, Repr

/-- `value.replace(/[-\s]/g, '')` (part_001 line 832): drop dashes and
whitespace from the sort code. -/
def stripSortCode (s : String) : String :=
  (s.toList.filter (fun c => !(c == '-' || c.isWhitespace))).asString

/-- `value.replace(/\s/g, '')` (part_001 line 833): drop whitespace from
the account number. -/
def stripSpaces (s : String) : String :=
  (s.toList.filter (fun c => !c.isWhitespace)).asString

/-- `/^\d{n}$/.test s`: exactly `n` characters, all decimal digits. -/
def isDigitsOfLength (n : Nat) (s : String) : Bool :=
  s.length == n && s.toList.all Char.isDigit

/-- The validation failures of part_001 `handleSubmit`, in source order. -/
inductive ValErr
  | emailMissing
  | phoneMissing
  | channelMissing
  | bankNameMissing
  | sortCodeInvalid
  | accountNumberInvalid
deriving DecidableEq, Repr

/-- The `submissionData` object transmitted on success (part_001
lines 896-921); the three bank fields are added only when
`payoutType === 'BANK'`. -/
structure SubmissionPayload where
  email : String
  firstName : String
  lastName : String
  payoutType : String
  phone : String
  contactChannel : String
  items : List TradeIn.PayloadItem
  bankAccountName : Option String
  bankSortCode : Option String
  bankAccountNumber : Option String
deriving DecidableEq, Repr

/-- The validation and payload-assembly prefix of part_001 `handleSubmit`
(lines 824-921): normalize the bank fields and phone, run the checks in
source order with the first failure stopping the submission, and otherwise
build the transmitted payload. -/
def validateAndBuild (f : FormData) (cart : List TradeIn.CartItem) :
    Except ValErr SubmissionPayload :=
  let bankAccountName := f.bankAccountNameRaw.trim
  let bankSortCode := stripSortCode f.bankSortCodeRaw
  let bankAccountNumber := stripSpaces f.bankAccountNumberRaw
  let phone := f.phoneRaw.trim
  if f.email = "" then .error .emailMissing
  else if phone = "" then .error .phoneMissing
  else if f.contactChannel = "" then .error .channelMissing
  else if f.payoutType == "BANK" && bankAccountName == "" then
    .error .bankNameMissing
  else if f.payoutType == "BANK" &&
      (bankSortCode == "" || !isDigitsOfLength 6 bankSortCode) then
    .error .sortCodeInvalid
  else if f.payoutType == "BANK" &&
      (bankAccountNumber == "" || !isDigitsOfLength 8 bankAccountNumber) then
    .error .accountNumberInvalid
  else
    .ok { email := f.email
          firstName := f.firstName
          lastName := f.lastName
          payoutType := f.payoutType
          phone := phone
          contactChannel := f.contactChannel
          items := cart.map TradeIn.payloadItem
          bankAccountName :=
            if f.payoutType == "BANK" then some bankAccountName else none
          bankSortCode :=
            if f.payoutType == "BANK" then some bankSortCode else none
          bankAccountNumber :=
            if f.payoutType == "BANK" then some bankAccountNumber else none }

end AppV2

namespace Track

/-!
The tracking page (src/assets/trade-in-track.js); only the per-item price
display of `renderItems` (lines 144-176) is needed here.
-/

/-- One element of the tracked submission's `items` array
(see the Track response shape documented in src/unnamed/part_000). -/
structure TrackedItem where
  cardName : String
  setCode : Option String
  quantity : Nat
  conditionClaimed : String
  conditionActual : Option String
  quotedPrice : Int
  finalPrice : Option Int
  status : String
deriving DecidableEq, Repr

/-- `item.finalPrice !== null && item.finalPrice !== item.quotedPrice`
(trade-in-track.js line 146): the adjustment indicator condition. -/
def hasAdjustment (item : TrackedItem) : Bool :=
  match item.finalPrice with
  | none => false
  | some f => f != item.quotedPrice

/-- `item.finalPrice !== null ? item.finalPrice : item.quotedPrice`
(trade-in-track.js line 147): the price used for display. -/
def displayPrice (item : TrackedItem) : Int :=
  match item.finalPrice with
  | none => item.quotedPrice
  | some f => f

end Track

namespace TradeIn

/-! ### Helper lemmas -/

theorem foldl_add_eq_sum (f : CartItem → Nat) (cart : List CartItem) (n : Nat) :
    cart.foldl (fun sum item => sum + f item) n = n + (cart.map f).sum := by
  induction cart generalizing n with
  | nil => simp
  | cons x xs ih => simp [ih, Nat.add_assoc]

/-- The exact multiplier table as the original claim states it, in percent
numerators over 100 — the idealized `floor(marketPrice × multiplier)` rule,
kept to exhibit where the program's double arithmetic diverges from it. -/
def specMultiplierPct (condition : String) : Nat :=
  if condition = "NM" then 70
  else if condition = "LP" then 55
  else if condition = "MP" then 40
  else if condition = "HP" then 25
  else if condition = "DMG" then 10
  else 0

/-- The original claim's price-of function (spec §8: `priceOf(card,
condition) == card.conditionPrices[condition]` when present, otherwise the
exact `floor(marketPrice × multiplier[condition])`). -/
def specPriceOf (card : Card) (condition : String) : Nat :=
  match card.prices condition with
  | some p => p
  | none => card.bestPriceGbp * specMultiplierPct condition / 100

/-- The amended claim's per-condition double multipliers: the binary64
values of the source literals, stated from the amended claim's words for
comparison with the source-derived `resolvePrice`. -/
def doubleOfCode (condition : String) : JsDouble :=
  if condition = "NM" then fl070
  else if condition = "LP" then fl055
  else if condition = "MP" then fl040
  else if condition = "HP" then fl025
  else if condition = "DMG" then fl010
  else ⟨0, 0⟩

theorem jsMulFloor_zero (m : JsDouble) : jsMulFloor 0 m = 0 := by
  simp [jsMulFloor, bitLen, bitLenAux]

/-! ### Uniqueness machinery for the cart invariant -/

/-- The merge key of a cart entry: its (cardId, condition) pair. -/
def pairKey (item : CartItem) : String × String := (item.cardId, item.condition)

/-- At most one cart entry per (cardId, condition) pair. -/
def UniquePairs (cart : List CartItem) : Prop := (cart.map pairKey).Nodup

theorem modifyAt_map_pairKey (cart : List CartItem) (i : Nat)
    (f : CartItem → CartItem) (hf : ∀ x, pairKey (f x) = pairKey x) :
    (modifyAt cart i f).map pairKey = cart.map pairKey := by
  induction cart generalizing i with
  | nil => rfl
  | cons x xs ih =>
    cases i with
    | zero => simp [modifyAt, hf]
    | succ n => simp [modifyAt, ih]

theorem findPairIdx_eq_none_iff (cart : List CartItem) (cardId condition : String) :
    findPairIdx cart cardId condition = none ↔
      ∀ item ∈ cart, ¬(item.cardId = cardId ∧ item.condition = condition) := by
  induction cart with
  | nil => simp [findPairIdx]
  | cons x xs ih =>
    by_cases hx : x.cardId = cardId ∧ x.condition = condition
    · simp [findPairIdx, hx.1, hx.2]
    · have hbeq : (x.cardId == cardId && x.condition == condition) = false := by
        rcases Decidable.not_and_iff_or_not.mp hx with h | h <;>
          simp [beq_eq_false_iff_ne, h]
      simp only [findPairIdx, hbeq, Bool.false_eq_true, if_false,
        Option.map_eq_none', List.mem_cons]
      constructor
      · rintro h item (rfl | hmem)
        · exact hx
        · exact (ih.mp h) item hmem
      · intro h
        exact ih.mpr fun item hmem => h item (Or.inr hmem)

theorem findPairIdx_append_singleton (cart : List CartItem)
    (cardId condition : String) (x : CartItem)
    (hnone : findPairIdx cart cardId condition = none)
    (hid : x.cardId = cardId) (hcond : x.condition = condition) :
    findPairIdx (cart ++ [x]) cardId condition = some cart.length := by
  induction cart with
  | nil => simp [findPairIdx, hid, hcond]
  | cons y ys ih =>
    have hy : (y.cardId == cardId && y.condition == condition) = false := by
      by_contra hcontra
      have : (y.cardId == cardId && y.condition == condition) = true :=
        eq_true_of_ne_false hcontra
      simp [findPairIdx, this] at hnone
    have hys : findPairIdx ys cardId condition = none := by
      simp only [findPairIdx, hy, Bool.false_eq_true, if_false,
        Option.map_eq_none'] at hnone
      exact hnone
    simp [findPairIdx, hy, ih hys]

theorem modifyAt_append_length (cart : List CartItem) (x : CartItem)
    (f : CartItem → CartItem) :
    modifyAt (cart ++ [x]) cart.length f = cart ++ [f x] := by
  induction cart with
  | nil => rfl
  | cons y ys ih => simp [modifyAt, ih]

theorem addToCart_preserves_uniquePairs (conditions : List ConditionDef)
    (cart : List CartItem) (card : Card) (condition : String) (quantity : Nat)
    (h : UniquePairs cart) :
    UniquePairs (addToCart conditions cart card condition quantity) := by
  unfold addToCart
  cases hfind : findPairIdx cart card.cardId condition with
  | some i =>
    unfold UniquePairs
    rw [modifyAt_map_pairKey]
    · exact h
    · intro x; rfl
  | none =>
    unfold UniquePairs
    rw [List.map_append]
    rw [List.nodup_append]
    refine ⟨h, List.nodup_singleton _, ?_⟩
    intro k hk hk'
    simp only [List.map_cons, List.map_nil, List.mem_singleton] at hk'
    rcases List.mem_map.mp hk with ⟨item, hitem, hkey⟩
    have hx := (findPairIdx_eq_none_iff cart card.cardId condition).mp hfind item hitem
    apply hx
    have : pairKey item = pairKey (newCartItem conditions card condition quantity) := by
      rw [hkey, hk']
    simpa [pairKey, newCartItem] using this

theorem removeFromCart_preserves_uniquePairs (cart : List CartItem) (index : Nat)
    (h : UniquePairs cart) : UniquePairs (removeFromCart cart index) := by
  unfold UniquePairs removeFromCart
  exact h.sublist (List.Sublist.map pairKey (List.eraseIdx_sublist cart index))

theorem updateCartQuantityCart_preserves_uniquePairs (cart : List CartItem)
    (index : Nat) (delta : Int) (h : UniquePairs cart) :
    UniquePairs (updateCartQuantityCart cart index delta) := by
  unfold updateCartQuantityCart
  cases cart.get? index with
  | none => exact h
  | some _ =>
    unfold UniquePairs
    rw [modifyAt_map_pairKey]
    · exact h
    · intro x; rfl

/-- The cart states reachable from the empty cart through the engine's
mutation operations (`addToCart`, `removeFromCart`, `updateCartQuantity`,
`clearCart`), with an arbitrary — possibly server-overridden — condition
table at each add. -/
inductive Reachable : List CartItem → Prop
  | empty : Reachable []
  | add (conditions : List ConditionDef) (card : Card) (condition : String)
      (quantity : Nat) {c : List CartItem} :
      Reachable c → Reachable (addToCart conditions c card condition quantity)
  | remove (index : Nat) {c : List CartItem} :
      Reachable c → Reachable (removeFromCart c index)
  | changeQty (index : Nat) (delta : Int) {c : List CartItem} :
      Reachable c → Reachable (updateCartQuantityCart c index delta)
  | clearAll {c : List CartItem} : Reachable c → Reachable []

theorem reachable_uniquePairs {c : List CartItem} (h : Reachable c) :
    UniquePairs c := by
  induction h with
  | empty => exact List.nodup_nil
  | add conditions card condition quantity _ ih =>
    exact addToCart_preserves_uniquePairs _ _ _ _ _ ih
  | remove index _ ih => exact removeFromCart_preserves_uniquePairs _ _ ih
  | changeQty index delta _ ih =>
    exact updateCartQuantityCart_preserves_uniquePairs _ _ _ ih
  | clearAll _ _ => exact List.nodup_nil

theorem bonus_floor_eq (s : Nat) : s * 110 / 100 = s * 11 / 10 := by
  have h : s * 110 = s * 11 * 10 := by ring
  rw [h, show (100 : Nat) = 10 * 10 from rfl]
  exact Nat.mul_div_mul_right (s * 11) 10 (by decide)

/-- A sample cart entry (values from the search-response example documented
in src/unnamed/part_000) used in concrete evaluations. -/
def sampleItem (condition : String) (quantity pricePerItem : Nat) : CartItem :=
  { cardId := "OP03-OP01-051-sp"
    name := "Monkey D. Luffy"
    set := "OP03-051"
    setCode := some "OP03"
    variantType := none
    imageUrl := none
    condition := condition
    quantity := quantity
    pricePerItem := pricePerItem
    basePriceGbp := 6800 }

/-! ### Claims -/

/-- Claim C2 (code_bug evaluation): `updateCartQuantity` is claimed to clamp
the resulting quantity to [1, 99], but the source only applies
`Math.max(1, quantity + delta)`.  At quantity 1, delta +1000 yields 1001
rather than 99; the lower clamp (delta -5 leaves 1) and the
no-removal property (length stays 1) do hold. -/
theorem c2_quantity_clamp_failing_input :
    (updateCartQuantityCart [sampleItem "NM" 1 4760] 0 1000).map
        (fun item => item.quantity) = [1001] ∧
    (1001 : Nat) ≠ 99 ∧
    (updateCartQuantityCart [sampleItem "NM" 1 4760] 0 (-5)).map
        (fun item => item.quantity) = [1] ∧
    (updateCartQuantityCart [sampleItem "NM" 1 4760] 0 1000).length = 1 := by
  refine ⟨?_, by decide, ?_, ?_⟩ <;> rfl

/-- Claim C5: the derived totals satisfy `itemCount = Σ quantity`,
`subtotal = Σ quantity × pricePerItem`,
`storeCreditTotal = floor(subtotal × (1 + bonusRate))` (with the default
bonus 0.10 this is `floor(subtotal × 11 / 10)`), and `bankTotal = subtotal`;
one item at price 4760 with quantity 2 gives subtotal 9520, store-credit
total 10472 and bank total 9520. -/
theorem c5_cart_totals :
    (∀ (bonusPct : Nat) (cart : List CartItem),
      (getCartTotals bonusPct cart).itemCount =
        (cart.map (fun item => item.quantity)).sum ∧
      (getCartTotals bonusPct cart).subtotal =
        (cart.map (fun item => item.quantity * item.pricePerItem)).sum ∧
      (getCartTotals bonusPct cart).storeCreditTotal =
        (getCartTotals bonusPct cart).subtotal * (100 + bonusPct) / 100 ∧
      (getCartTotals bonusPct cart).bankTotal =
        (getCartTotals bonusPct cart).subtotal) ∧
    (∀ cart : List CartItem,
      (getCartTotals defaultStoreCreditBonusPct cart).storeCreditTotal =
        (getCartTotals defaultStoreCreditBonusPct cart).subtotal * 11 / 10) ∧
    getCartTotals defaultStoreCreditBonusPct [sampleItem "NM" 2 4760] =
      { itemCount := 2, subtotal := 9520, storeCreditTotal := 10472
        bankTotal := 9520 } := by
  refine ⟨fun bonusPct cart => ⟨?_, ?_, rfl, rfl⟩, fun cart => ?_, by decide⟩
  · simp [getCartTotals, foldl_add_eq_sum (fun item => item.quantity)]
  · simp only [getCartTotals]
    rw [foldl_add_eq_sum (fun item => item.pricePerItem * item.quantity)]
    simp [Nat.mul_comm]
  · exact bonus_floor_eq _

/-- Claim C10: for an index with no cart item (out of bounds),
`updateCartQuantity` is a no-op: the cart, its persisted copy and the
derived totals are unchanged, for every delta. -/
theorem c10_oob_noop :
    ∀ (cart : List CartItem) (storage : Storage) (index : Nat) (delta : Int)
      (bonusPct : Nat), cart.length ≤ index →
      updateCartQuantity cart storage index delta = (cart, storage) ∧
      getCartTotals bonusPct (updateCartQuantity cart storage index delta).1 =
        getCartTotals bonusPct cart := by
  intro cart storage index delta bonusPct h
  have hg : cart[index]? = none := List.getElem?_eq_none h
  constructor <;> simp [updateCartQuantity, List.get?_eq_getElem?, hg]

/-- Witness for C10 at a concrete out-of-bounds index. -/
theorem c10_oob_noop_witness :
    updateCartQuantity [sampleItem "NM" 1 4760] ⟨none, none⟩ 5 (-3) =
      ([sampleItem "NM" 1 4760], ⟨none, none⟩) :=
  (c10_oob_noop [sampleItem "NM" 1 4760] ⟨none, none⟩ 5 (-3)
    defaultStoreCreditBonusPct (by decide)).1

end TradeIn

/-- Claim C9: for every tracked submission item, the displayed price is
`finalPrice` when present and `quotedPrice` otherwise, and the adjustment
indicator appears iff `finalPrice` is present and differs from
`quotedPrice`. -/
theorem c9_display_price :
    ∀ item : Track.TrackedItem,
      Track.displayPrice item = item.finalPrice.getD item.quotedPrice ∧
      (Track.hasAdjustment item = true ↔
        ∃ f, item.finalPrice = some f ∧ f ≠ item.quotedPrice) := by
  intro item
  constructor
  · cases hf : item.finalPrice <;> simp [Track.displayPrice, hf]
  · cases hf : item.finalPrice <;> simp [Track.hasAdjustment, hf]

namespace TradeIn

/-- A catalog card whose NM trade-in price is 10 pence; used to build a
reachable counterexample cart. -/
def cheapCard : Card :=
  { cardId := "X"
    name := "Card X"
    setCode := "OP03"
    fullCardNumber := "OP03-001"
    variantType := ""
    imageUrl := none
    bestPriceGbp := 0
    prices := fun condition => if condition = "NM" then some 10 else none }

/-- A cart reached by adding the same (cardId, condition) pair twice with
quantity 99: one entry of quantity 198, subtotal 1980. -/
def c1Cart : List CartItem :=
  addToCart defaultConditions
    (addToCart defaultConditions [] cheapCard "NM" 99) cheapCard "NM" 99

/-- Claim C1 (counterexample): a reachable cart with itemCount 198 > 100 and
an item of quantity 198 > 99 is accepted by the engine's only
submission-eligibility gate (`meetsMinimum`, which enables the submit
button), refuting the claimed equivalence with the `itemCount ≤ 100` and
`quantity ≤ 99` conjuncts. -/
theorem c1_eligibility_counterexample :
    Reachable c1Cart ∧
    meetsMinimum defaultStoreCreditBonusPct defaultMinimumValue c1Cart = true ∧
    ¬(defaultMinimumValue ≤ (getCartTotals defaultStoreCreditBonusPct c1Cart).subtotal ∧
      (getCartTotals defaultStoreCreditBonusPct c1Cart).itemCount ≤ 100 ∧
      ∀ item ∈ c1Cart, item.quantity ≤ 99) := by
  refine ⟨?_, by decide, by decide⟩
  exact Reachable.add _ _ _ _ (Reachable.add _ _ _ _ Reachable.empty)

/-- Claim C1 (amended): a cart is submission-eligible iff
`subtotal ≥ minimumValue` (default 500 minor units); no itemCount or
per-item-quantity bound is checked.  When ineligible — necessarily because
of the minimum — the engine exposes the exact shortfall
`minimumValue − subtotal`: subtotal 480 gives shortfall 20, and subtotal
500 is eligible. -/
theorem c1_eligibility_amended :
    (∀ (bonusPct minimumValue : Nat) (cart : List CartItem),
      (meetsMinimum bonusPct minimumValue cart = true ↔
        minimumValue ≤ (getCartTotals bonusPct cart).subtotal) ∧
      (meetsMinimum bonusPct minimumValue cart = false →
        minimumNotice bonusPct minimumValue cart =
          some (minimumValue - (getCartTotals bonusPct cart).subtotal)) ∧
      (meetsMinimum bonusPct minimumValue cart = true →
        minimumNotice bonusPct minimumValue cart = none)) ∧
    meetsMinimum defaultStoreCreditBonusPct defaultMinimumValue
      [sampleItem "NM" 1 480] = false ∧
    minimumNotice defaultStoreCreditBonusPct defaultMinimumValue
      [sampleItem "NM" 1 480] = some 20 ∧
    meetsMinimum defaultStoreCreditBonusPct defaultMinimumValue
      [sampleItem "NM" 1 500] = true := by
  refine ⟨fun bonusPct minimumValue cart => ⟨?_, ?_, ?_⟩,
    by decide, by decide, by decide⟩
  · simp [meetsMinimum]
  · intro h; simp [minimumNotice, h]
  · intro h; simp [minimumNotice, h]

/-- Witness for the amended C1 at subtotal 480 against minimum 500. -/
theorem c1_eligibility_amended_witness :
    minimumNotice defaultStoreCreditBonusPct defaultMinimumValue
      [sampleItem "NM" 1 480] = some (500 - 480) :=
  (c1_eligibility_amended.1 defaultStoreCreditBonusPct defaultMinimumValue
    [sampleItem "NM" 1 480]).2.1 (by decide)

/-- The card of the C3 counterexample: no precomputed condition prices,
market price 90 pence. -/
def card90 : Card :=
  { cardId := "Z"
    name := "Card Z"
    setCode := "OP02"
    fullCardNumber := "OP02-003"
    variantType := ""
    imageUrl := none
    bestPriceGbp := 90
    prices := fun _ => none }

/-- Claim C3 (counterexample): at market price 90 pence, condition NM, no
precomputed prices, the code computes `Math.floor(90 * 0.70)` in doubles —
90 × fl(0.70) rounds to 62.99999999999999, so the resolved and pushed price
is 62 — while the claimed exact `floor(90 × 0.70)` is 63. -/
theorem c3_price_resolution_counterexample :
    resolvePrice defaultConditions card90 "NM" = 62 ∧
    specPriceOf card90 "NM" = 63 ∧
    (newCartItem defaultConditions card90 "NM" 1).pricePerItem = 62 ∧
    (62 : Nat) ≠ 63 :=
  ⟨by decide, by decide, by decide, by decide⟩

/-- Claim C3 (amended): for every card and condition code among NM, LP, MP,
HP, DMG, the price resolved when adding the item equals the card's
precomputed per-condition price when that price is present; otherwise it is
`Math.floor` of the IEEE-754 double product marketPrice × multiplier with
the fixed table (which can be one less than the exact
`floor(marketPrice × multiplier)`, e.g. 62 rather than 63 at market price
90 with NM); the multiplier fallback is never applied on top of a present
condition-adjusted price, and the appended cart entry carries exactly the
resolved price. -/
theorem c3_price_resolution :
    ∀ (card : Card) (condition : String),
      condition ∈ ["NM", "LP", "MP", "HP", "DMG"] →
      (∀ p, card.prices condition = some p →
        resolvePrice defaultConditions card condition = p) ∧
      (card.prices condition = none →
        resolvePrice defaultConditions card condition =
          jsMulFloor card.bestPriceGbp (doubleOfCode condition)) ∧
      (∀ (cart : List CartItem) (quantity : Nat),
        findPairIdx cart card.cardId condition = none →
        addToCart defaultConditions cart card condition quantity =
          cart ++ [newCartItem defaultConditions card condition quantity] ∧
        (newCartItem defaultConditions card condition quantity).pricePerItem =
          resolvePrice defaultConditions card condition) := by
  intro card condition hmem
  have hfind : defaultConditions.find? (fun c => c.code == condition) =
      some ⟨condition, doubleOfCode condition⟩ := by
    fin_cases hmem <;> rfl
  refine ⟨?_, ?_, ?_⟩
  · intro p hp
    simp [resolvePrice, hp]
  · intro hp
    by_cases hb : card.bestPriceGbp = 0
    · simp [resolvePrice, hp, hfind, hb, jsMulFloor_zero]
    · simp [resolvePrice, hp, hfind, hb]
  · intro cart quantity hnone
    exact ⟨by simp [addToCart, hnone], rfl⟩

/-- A card without precomputed condition prices (market 1000 pence). -/
def bareCard : Card :=
  { cardId := "Y"
    name := "Card Y"
    setCode := "OP01"
    fullCardNumber := "OP01-002"
    variantType := ""
    imageUrl := none
    bestPriceGbp := 1000
    prices := fun _ => none }

/-- Witness for the amended C3: with no precomputed prices, condition LP
resolves through the double fallback, `Math.floor(1000 * 0.55) = 550`. -/
theorem c3_price_resolution_witness :
    resolvePrice defaultConditions bareCard "LP" =
      jsMulFloor bareCard.bestPriceGbp (doubleOfCode "LP") ∧
    jsMulFloor 1000 (doubleOfCode "LP") = 550 :=
  ⟨(c3_price_resolution bareCard "LP" (by decide)).2.1 rfl, by decide⟩

/-- Claim C4: every cart reachable through the engine's mutation operations
has at most one entry per (cardId, condition) pair, and adding the same pair
twice with quantities a and b yields a single entry of quantity a + b whose
price snapshot is the one resolved at the first add. -/
theorem c4_cart_uniqueness :
    (∀ cart, Reachable cart → UniquePairs cart) ∧
    (∀ (conditions : List ConditionDef) (cart : List CartItem)
      (card card' : Card) (condition : String) (a b : Nat),
      card'.cardId = card.cardId →
      findPairIdx cart card.cardId condition = none →
      addToCart conditions (addToCart conditions cart card condition a)
          card' condition b =
        cart ++ [{ newCartItem conditions card condition a with quantity := a + b }] ∧
      ((addToCart conditions (addToCart conditions cart card condition a)
          card' condition b).filter
        (fun item => item.cardId == card.cardId && item.condition == condition)).length = 1 ∧
      ∀ item ∈ addToCart conditions (addToCart conditions cart card condition a)
          card' condition b,
        item.cardId = card.cardId → item.condition = condition →
        item.quantity = a + b ∧
        item.pricePerItem = resolvePrice conditions card condition) := by
  refine ⟨fun cart h => reachable_uniquePairs h, ?_⟩
  intro conditions cart card card' condition a b hid hnone
  have h1 : addToCart conditions cart card condition a =
      cart ++ [newCartItem conditions card condition a] := by
    simp [addToCart, hnone]
  have hfind2 : findPairIdx (cart ++ [newCartItem conditions card condition a])
      card'.cardId condition = some cart.length := by
    rw [hid]
    exact findPairIdx_append_singleton cart card.cardId condition _ hnone rfl rfl
  have h2 : addToCart conditions (addToCart conditions cart card condition a)
      card' condition b =
      cart ++ [{ newCartItem conditions card condition a with quantity := a + b }] := by
    rw [h1]
    unfold addToCart
    rw [hfind2]
    exact modifyAt_append_length cart _ _
  refine ⟨h2, ?_, ?_⟩
  · rw [h2, List.filter_append]
    have hcf : cart.filter
        (fun item => item.cardId == card.cardId && item.condition == condition) = [] := by
      rw [List.filter_eq_nil_iff]
      intro item hmem
      have hno := (findPairIdx_eq_none_iff cart card.cardId condition).mp hnone item hmem
      simp only [Bool.and_eq_true, beq_iff_eq]
      exact fun hc => hno ⟨hc.1, hc.2⟩
    rw [hcf]
    simp [newCartItem]
  · intro item hmem hidc hcond
    rw [h2] at hmem
    rcases List.mem_append.mp hmem with hic | hix
    · exact absurd ⟨hidc, hcond⟩
        ((findPairIdx_eq_none_iff cart card.cardId condition).mp hnone item hic)
    · have : item = { newCartItem conditions card condition a with quantity := a + b } := by
        simpa using hix
      subst this
      exact ⟨rfl, rfl⟩

/-- A second fetch of the same card with a different NM price, for the
price-snapshot witness. -/
def cheapCardRepriced : Card :=
  { cheapCard with prices := fun condition => if condition = "NM" then some 25 else none }

/-- Witness for C4: adding cheapCard (NM price 10) with quantity 2 and then
the repriced fetch of the same card with quantity 3 yields the single merged
entry with quantity 5 and the first add's price. -/
theorem c4_cart_uniqueness_witness :
    addToCart defaultConditions
        (addToCart defaultConditions [] cheapCard "NM" 2)
        cheapCardRepriced "NM" 3 =
      [{ newCartItem defaultConditions cheapCard "NM" 2 with quantity := 5 }] :=
  (c4_cart_uniqueness.2 defaultConditions [] cheapCard cheapCardRepriced
    "NM" 2 3 rfl rfl).1

/-- Claim C6: persisting a CartState and reloading with the same schema
version yields the identical CartState, provided every item carries the
required cardId, name and condition fields; reloading under a different
stored version yields the empty CartState and resets the stored marker to
the engine's current version. -/
theorem c6_persistence_roundtrip :
    (∀ (cart : List CartItem) (storage : Storage),
      (∀ item ∈ cart, itemValid item = true) →
      loadCart (saveCart cart storage) = (cart, saveCart cart storage)) ∧
    (∀ storage : Storage,
      storage.tradeInCartVersion ≠ some (toString CART_VERSION) →
      loadCart storage =
        ([], { tradeInCart := none
               tradeInCartVersion := some (toString CART_VERSION) })) := by
  constructor
  · intro cart storage hvalid
    have hfilter : cart.filter itemValid = cart := List.filter_eq_self.mpr hvalid
    simp [loadCart, saveCart, hfilter]
  · intro storage h
    simp [loadCart, h]

/-- Witness for C6: one valid saved item survives the round trip, and a
stale version marker wipes the stored cart. -/
theorem c6_persistence_roundtrip_witness :
    loadCart (saveCart [sampleItem "NM" 2 4760] ⟨none, none⟩) =
      ([sampleItem "NM" 2 4760], saveCart [sampleItem "NM" 2 4760] ⟨none, none⟩) ∧
    loadCart ⟨some [sampleItem "NM" 2 4760], some "1"⟩ =
      ([], ⟨none, some (toString CART_VERSION)⟩) :=
  ⟨c6_persistence_roundtrip.1 [sampleItem "NM" 2 4760] ⟨none, none⟩ (by decide),
   c6_persistence_roundtrip.2 ⟨some [sampleItem "NM" 2 4760], some "1"⟩ (by decide)⟩

/-- Claim C8: submission is atomic with respect to the cart — a validation
failure or a failed network call leaves the cart and its persisted copy
exactly as they were (so the shopper can retry), while a successful
submission clears both and parameterizes the packing-slip, shipping and
tracking links with the returned submissionNumber. -/
theorem c8_submission_atomicity :
    ∀ (email : String) (cart : List CartItem) (storage : Storage)
      (response : Except String SubmitResult),
      ((email = "" ∨ ∃ msg, response = Except.error msg) →
        (handleSubmit email cart storage response).cart = cart ∧
        (handleSubmit email cart storage response).storage = storage ∧
        (handleSubmit email cart storage response).links = none) ∧
      (∀ result, email ≠ "" → response = Except.ok result →
        (handleSubmit email cart storage response).cart = [] ∧
        (handleSubmit email cart storage response).storage =
          { tradeInCart := none
            tradeInCartVersion := some (toString CART_VERSION) } ∧
        (handleSubmit email cart storage response).links = some
          { packingSlip := apiBase ++ "/packing-slip/" ++ result.submissionNumber
            shipping := apiBase ++ "/shipping-instructions/" ++ result.submissionNumber
            tracking := "/pages/trade-in-track?number=" ++ result.submissionNumber }) := by
  intro email cart storage response
  constructor
  · rintro (he | ⟨msg, rfl⟩)
    · simp [handleSubmit, he]
    · by_cases he : email = "" <;> simp [handleSubmit, he]
  · rintro result he rfl
    simp [handleSubmit, he]

/-- Witness for C8: a failed call leaves the cart untouched; a successful
call yields the three links for submission `TI-2024-ABC123`. -/
theorem c8_submission_atomicity_witness :
    (handleSubmit "shopper@example.com" [sampleItem "NM" 2 4760]
        ⟨some [sampleItem "NM" 2 4760], some "2"⟩
        (Except.error "creation_failed")).cart = [sampleItem "NM" 2 4760] ∧
    (handleSubmit "shopper@example.com" [sampleItem "NM" 2 4760]
        ⟨some [sampleItem "NM" 2 4760], some "2"⟩
        (Except.ok ⟨"TI-2024-ABC123"⟩)).links = some
      { packingSlip := apiBase ++ "/packing-slip/" ++ "TI-2024-ABC123"
        shipping := apiBase ++ "/shipping-instructions/" ++ "TI-2024-ABC123"
        tracking := "/pages/trade-in-track?number=" ++ "TI-2024-ABC123" } :=
  ⟨((c8_submission_atomicity "shopper@example.com" [sampleItem "NM" 2 4760]
      ⟨some [sampleItem "NM" 2 4760], some "2"⟩
      (Except.error "creation_failed")).1 (Or.inr ⟨_, rfl⟩)).1,
   ((c8_submission_atomicity "shopper@example.com" [sampleItem "NM" 2 4760]
      ⟨some [sampleItem "NM" 2 4760], some "2"⟩
      (Except.ok ⟨"TI-2024-ABC123"⟩)).2 ⟨"TI-2024-ABC123"⟩
      (by decide) rfl).2.2⟩

end TradeIn

namespace AppV2

theorem isDigits_ne_empty {n : Nat} {s : String} (hn : 0 < n)
    (h : isDigitsOfLength n s = true) : s ≠ "" := by
  intro hs
  subst hs
  simp [isDigitsOfLength] at h
  omega

/-- The payload produced when every validation guard passes. -/
def okPayload (f : FormData) (cart : List TradeIn.CartItem) : SubmissionPayload :=
  { email := f.email
    firstName := f.firstName
    lastName := f.lastName
    payoutType := f.payoutType
    phone := f.phoneRaw.trim
    contactChannel := f.contactChannel
    items := cart.map TradeIn.payloadItem
    bankAccountName :=
      if f.payoutType == "BANK" then some f.bankAccountNameRaw.trim else none
    bankSortCode :=
      if f.payoutType == "BANK" then some (stripSortCode f.bankSortCodeRaw) else none
    bankAccountNumber :=
      if f.payoutType == "BANK" then some (stripSpaces f.bankAccountNumberRaw) else none }

theorem validateAndBuild_ok_eq (f : FormData) (cart : List TradeIn.CartItem)
    (he : ¬f.email = "") (hp : ¬f.phoneRaw.trim = "")
    (hc : ¬f.contactChannel = "")
    (hg1 : (f.payoutType == "BANK" && (f.bankAccountNameRaw.trim == "")) = false)
    (hg2 : (f.payoutType == "BANK" &&
      (stripSortCode f.bankSortCodeRaw == "" ||
        !isDigitsOfLength 6 (stripSortCode f.bankSortCodeRaw))) = false)
    (hg3 : (f.payoutType == "BANK" &&
      (stripSpaces f.bankAccountNumberRaw == "" ||
        !isDigitsOfLength 8 (stripSpaces f.bankAccountNumberRaw))) = false) :
    validateAndBuild f cart = Except.ok (okPayload f cart) := by
  simp [validateAndBuild, okPayload, he, hp, hc, hg1, hg2, hg3]

/-- A filled-in bank-payout form used in concrete evaluations. -/
def bankForm : FormData :=
  { email := "shopper@example.com"
    firstName := "Jo"
    lastName := "Shopper"
    payoutType := "BANK"
    shopifyCustomerId := ""
    bankAccountNameRaw := "Jo Shopper"
    bankSortCodeRaw := "12-34-56"
    bankAccountNumberRaw := "12345678"
    phoneRaw := "07123456789"
    contactChannel := "EMAIL" }

end AppV2

/-- Claim C7: with payoutType BANK, submission validates in order — email
present, phone present, contact channel selected, account-holder name
present, 6-digit sort code, 8-digit account number — the first failure
winning; the sort code is normalized by stripping separators before
validation and before transmission ("12-34-56" becomes "123456"), and the
bank fields appear in the transmitted payload exactly when payoutType is
BANK. -/
theorem c7_bank_validation :
    AppV2.stripSortCode "12-34-56" = "123456" ∧
    ∀ (f : AppV2.FormData) (cart : List TradeIn.CartItem),
      (f.email = "" →
        AppV2.validateAndBuild f cart = Except.error AppV2.ValErr.emailMissing) ∧
      (f.email ≠ "" → f.phoneRaw.trim = "" →
        AppV2.validateAndBuild f cart = Except.error AppV2.ValErr.phoneMissing) ∧
      (f.email ≠ "" → f.phoneRaw.trim ≠ "" → f.contactChannel = "" →
        AppV2.validateAndBuild f cart = Except.error AppV2.ValErr.channelMissing) ∧
      (f.email ≠ "" → f.phoneRaw.trim ≠ "" → f.contactChannel ≠ "" →
        f.payoutType = "BANK" → f.bankAccountNameRaw.trim = "" →
        AppV2.validateAndBuild f cart = Except.error AppV2.ValErr.bankNameMissing) ∧
      (f.email ≠ "" → f.phoneRaw.trim ≠ "" → f.contactChannel ≠ "" →
        f.payoutType = "BANK" → f.bankAccountNameRaw.trim ≠ "" →
        AppV2.isDigitsOfLength 6 (AppV2.stripSortCode f.bankSortCodeRaw) = false →
        AppV2.validateAndBuild f cart = Except.error AppV2.ValErr.sortCodeInvalid) ∧
      (f.email ≠ "" → f.phoneRaw.trim ≠ "" → f.contactChannel ≠ "" →
        f.payoutType = "BANK" → f.bankAccountNameRaw.trim ≠ "" →
        AppV2.isDigitsOfLength 6 (AppV2.stripSortCode f.bankSortCodeRaw) = true →
        AppV2.isDigitsOfLength 8 (AppV2.stripSpaces f.bankAccountNumberRaw) = false →
        AppV2.validateAndBuild f cart =
          Except.error AppV2.ValErr.accountNumberInvalid) ∧
      (∀ payload, AppV2.validateAndBuild f cart = Except.ok payload →
        (f.payoutType = "BANK" →
          payload.bankAccountName = some f.bankAccountNameRaw.trim ∧
          payload.bankSortCode = some (AppV2.stripSortCode f.bankSortCodeRaw) ∧
          payload.bankAccountNumber =
            some (AppV2.stripSpaces f.bankAccountNumberRaw) ∧
          AppV2.isDigitsOfLength 6 (AppV2.stripSortCode f.bankSortCodeRaw) = true ∧
          AppV2.isDigitsOfLength 8 (AppV2.stripSpaces f.bankAccountNumberRaw) = true) ∧
        (f.payoutType ≠ "BANK" →
          payload.bankAccountName = none ∧
          payload.bankSortCode = none ∧
          payload.bankAccountNumber = none)) := by
  refine ⟨by decide, ?_⟩
  intro f cart
  refine ⟨?_, ?_, ?_, ?_, ?_, ?_, ?_⟩
  · intro he
    simp [AppV2.validateAndBuild, he]
  · intro he hp
    simp [AppV2.validateAndBuild, he, hp]
  · intro he hp hc
    simp [AppV2.validateAndBuild, he, hp, hc]
  · intro he hp hc hB hname
    simp [AppV2.validateAndBuild, he, hp, hc, hB, hname]
  · intro he hp hc hB hname hsort
    simp [AppV2.validateAndBuild, he, hp, hc, hB, hname, hsort]
  · intro he hp hc hB hname hsort hacct
    have hne : AppV2.stripSortCode f.bankSortCodeRaw ≠ "" :=
      AppV2.isDigits_ne_empty (by decide) hsort
    simp [AppV2.validateAndBuild, he, hp, hc, hB, hname, hsort, hne, hacct]
  · intro payload hok
    by_cases he : f.email = ""
    · simp [AppV2.validateAndBuild, he] at hok
    by_cases hp : f.phoneRaw.trim = ""
    · simp [AppV2.validateAndBuild, he, hp] at hok
    by_cases hc : f.contactChannel = ""
    · simp [AppV2.validateAndBuild, he, hp, hc] at hok
    by_cases hB : f.payoutType = "BANK"
    · by_cases hname : f.bankAccountNameRaw.trim = ""
      · simp [AppV2.validateAndBuild, he, hp, hc, hB, hname] at hok
      cases hb6 : AppV2.isDigitsOfLength 6 (AppV2.stripSortCode f.bankSortCodeRaw) with
      | false => simp [AppV2.validateAndBuild, he, hp, hc, hB, hname, hb6] at hok
      | true =>
        have hne6 : AppV2.stripSortCode f.bankSortCodeRaw ≠ "" :=
          AppV2.isDigits_ne_empty (by decide) hb6
        cases hb8 : AppV2.isDigitsOfLength 8 (AppV2.stripSpaces f.bankAccountNumberRaw) with
        | false =>
          simp [AppV2.validateAndBuild, he, hp, hc, hB, hname, hb6, hne6, hb8] at hok
        | true =>
          have hne8 : AppV2.stripSpaces f.bankAccountNumberRaw ≠ "" :=
            AppV2.isDigits_ne_empty (by decide) hb8
          have hrec := AppV2.validateAndBuild_ok_eq f cart he hp hc
            (by simp [hB, hname]) (by simp [hB, hne6, hb6]) (by simp [hB, hne8, hb8])
          have hpay : payload = AppV2.okPayload f cart :=
            Except.ok.inj (hok.symm.trans hrec)
          subst hpay
          exact ⟨fun _ => ⟨by simp [AppV2.okPayload, hB], by simp [AppV2.okPayload, hB],
              by simp [AppV2.okPayload, hB], rfl, rfl⟩,
            fun hB' => absurd hB hB'⟩
    · have hrec := AppV2.validateAndBuild_ok_eq f cart he hp hc
        (by simp [hB]) (by simp [hB]) (by simp [hB])
      have hpay : payload = AppV2.okPayload f cart :=
        Except.ok.inj (hok.symm.trans hrec)
      subst hpay
      exact ⟨fun hBB => absurd hBB hB,
        fun _ => ⟨by simp [AppV2.okPayload, hB], by simp [AppV2.okPayload, hB],
          by simp [AppV2.okPayload, hB]⟩⟩

/-- Witness for C7: blanking the email on an otherwise valid bank form stops
submission with the email failure, and the example sort code normalizes. -/
theorem c7_bank_validation_witness :
    AppV2.validateAndBuild { AppV2.bankForm with email := "" } [] =
      Except.error AppV2.ValErr.emailMissing ∧
    AppV2.stripSortCode "12-34-56" = "123456" :=
  ⟨(c7_bank_validation.2 { AppV2.bankForm with email := "" } []).1 rfl,
   c7_bank_validation.1⟩
